import Mathlib

/-!
Verification of the scheduling/playback core of the Pairing_Mobile_App player
(`src/screens/PlayerScreen.tsx`).  The player holds a playlist of items, each
with an optional `scheduled_time` string ("HH:mm" or null), an optional numeric
duration in seconds, and a media record; a 1-second scheduler tick jumps to
exact-minute scheduled items, advances on duration expiry, and a 4-second
polling loop refreshes the playlist, replacing it only when the JSON
serialization differs.  All definitions below are shallow embeddings of that
TypeScript source; JavaScript string comparison is modelled by an explicit
lexicographic comparison on character lists.
-/

/-- JS lexicographic `<` on strings, char by char (code-unit order).  Mirrors
the semantics of the `<=`/`<` operators applied to the `"HH:mm:ss"` and
`"HH:mm"` strings in the source. -/
def jsLtList : List Char → List Char → Bool
  | [], [] => false
  | [], _ :: _ => true
  | _ :: _, [] => false
  | a :: as, b :: bs => if a < b then true else if b < a then false else jsLtList as bs

/-- JS `a < b` on strings. -/
def jsLT (a b : String) : Bool := jsLtList a.toList b.toList

/-- JS `a <= b` on strings, which the runtime evaluates as `!(b < a)`. -/
def jsLE (a b : String) : Bool := !(jsLT b a)

/-- JS falsy-default `x || d`: a missing (null) or zero value falls back to `d`,
as in `currentItem.duration || 5` (line 223 of PlayerScreen.tsx). -/
def jsOr (x : Option Nat) (d : Nat) : Nat :=
  match x with
  | none => d
  | some 0 => d
  | some n => n

/-- Contiguous containment of `needle` in `hay`, scanning left to right. -/
def jsIncludesList (needle : List Char) : List Char → Bool
  | [] => needle.isEmpty
  | c :: t => needle.isPrefixOf (c :: t) || jsIncludesList needle t

/-- JS `s.includes(pat)`: contiguous substring containment. -/
def jsIncludes (s pat : String) : Bool := jsIncludesList pat.toList s.toList

/-- JS `currentTimeString.substring(0, 5)` (line 177): the `"HH:mm"` part of an
`"HH:mm:ss"` time string. -/
def timeHHMM (s : String) : String := (s.toList.take 5).asString

/-- The `MediaItem` record type of PlayerScreen.tsx (lines 15-20). -/
structure MediaItem where
  id : Nat
  file_name : String
  file_path : String
  file_type : String
deriving DecidableEq

/-- The `PlaylistItem` record type of PlayerScreen.tsx (lines 22-28).
`duration` is typed `number` in TS but the RPC may deliver null, which the
source guards with `|| 5`; we model it as an `Option Nat`.  `scheduled_time`
is `string | null` holding an `"HH:mm"` value. -/
structure PlaylistItem where
  id : Nat
  duration : Option Nat
  scheduled_time : Option String
  media : List MediaItem
  orientation : String
deriving DecidableEq

/-- Line 209: `!currentItem.scheduled_time || currentItem.scheduled_time <=
currentTimeString`.  The same predicate is used by the refresh branch's
`findIndex` (lines 112-114) and the next-item scan (line 235). -/
def isItemPlayable (it : PlaylistItem) (nowStr : String) : Bool :=
  match it.scheduled_time with
  | none => true
  | some s => jsLE s nowStr

/-- Line 223: `(currentItem.duration || 5) * 1000`. -/
def durationMs (it : PlaylistItem) : Nat := jsOr it.duration 5 * 1000

/-- The mutable scheduler state of PlayerScreen.tsx: `currentIndexRef`,
`mediaStartTimeRef` and the `isPlayable` flag. -/
structure SchedState where
  currentIndex : Nat
  mediaStartTime : Nat
  isPlayable : Bool
deriving DecidableEq

/-- Lines 229-239: scan offsets `i = 1 .. playlist.length - 1` from the current
index, modulo the length, for the first playable item. -/
def nextPlayableIndex (playlist : List PlaylistItem) (cur : Nat) (nowStr : String) : Option Nat :=
  ((List.range (playlist.length - 1)).map (fun k => (cur + (k + 1)) % playlist.length)).find?
    (fun t => match playlist[t]? with
      | some it => isItemPlayable it nowStr
      | none => false)

/-- Lines 201-261 of the scheduler tick, after the exact-minute jump check.
`stale` is the value of the React state `isPlayable` captured by the interval
closure: both `if (!isPlayable)` tests in one tick read that captured value,
while the writes they perform are reflected in the returned state.  The write
`setIsPlayable(false)` on line 212 is guarded by `if (isPlayable)` in the
source purely to avoid a redundant re-render; the resulting state is the
same, so it is modelled unconditionally. -/
def tickBody (playlist : List PlaylistItem) (st : SchedState) (stale : Bool)
    (nowStr : String) (nowMs : Nat) : SchedState :=
  match playlist[st.currentIndex]? with
  | none => { st with currentIndex := 0 }
  | some currentItem =>
    if !(isItemPlayable currentItem nowStr) then
      { st with isPlayable := false }
    else
      let st1 := if !stale then { st with isPlayable := true, mediaStartTime := nowMs } else st
      let timeElapsed := nowMs - st1.mediaStartTime
      if durationMs currentItem < timeElapsed then
        match nextPlayableIndex playlist st1.currentIndex nowStr with
        | some nextIdx => { st1 with currentIndex := nextIdx, mediaStartTime := nowMs }
        | none =>
          if isItemPlayable currentItem nowStr then { st1 with mediaStartTime := nowMs }
          else { st1 with isPlayable := false }
      else st1

/-- Lines 174-263: one firing of the 1-second scheduler interval.  `nowStr` is
`now.toTimeString().split(' ')[0]` (an `"HH:mm:ss"` string) and `nowMs` is
`Date.now()`.  Step 1 (lines 179-199) jumps to the first item whose
`scheduled_time` strictly equals the current `"HH:mm"` minute; when that item
is already current (or there is none) control falls through to `tickBody`. -/
def tick (playlist : List PlaylistItem) (st : SchedState) (nowStr : String) (nowMs : Nat) :
    SchedState :=
  match playlist.findIdx? (fun it => decide (it.scheduled_time = some (timeHHMM nowStr))) with
  | some j =>
    if j ≠ st.currentIndex then
      { currentIndex := j, mediaStartTime := nowMs, isPlayable := true }
    else
      tickBody playlist st st.isPlayable nowStr nowMs
  | none => tickBody playlist st st.isPlayable nowStr nowMs

/-- Result of one successful playlist fetch being applied to state. -/
structure RefreshResult where
  playlist : List PlaylistItem
  currentIndex : Nat
  isPlayable : Bool
  switched : Bool
deriving DecidableEq

/-- Lines 107-128: the `setPlaylist` updater.  The source compares
`JSON.stringify(currentPlaylist)` with `JSON.stringify(formattedPlaylist)`;
on these records (fixed key order, no floats) that serialization is injective,
so the comparison is modelled as structural equality.  When the payload
differs, `findIndex` with the playability predicate re-derives the index
(lines 110-124), resetting `currentIndexRef` and `mediaStartTimeRef`;
`switched` records that this update branch ran. -/
def refreshStep (cur newPl : List PlaylistItem) (nowStr : String) (idx : Nat)
    (playable : Bool) : RefreshResult :=
  if cur = newPl then ⟨cur, idx, playable, false⟩
  else
    match newPl.findIdx? (fun it => isItemPlayable it nowStr) with
    | some i => ⟨newPl, i, true, true⟩
    | none => ⟨newPl, 0, false, true⟩

/-- What `renderCurrentMedia` (lines 296-336) produces. -/
inductive MediaRender where
  | blank
  | image (path : String)
  | video (path : String)
  | unsupported
deriving DecidableEq

/-- Lines 296-336: `playlist[currentIndex]`, then `currentItem?.media[0]`; a
missing item or missing media renders an empty view; the file type is then
tested with `includes('image')` and `includes('video')`. -/
def renderCurrentMedia (playlist : List PlaylistItem) (idx : Nat) : MediaRender :=
  match playlist[idx]? with
  | none => MediaRender.blank
  | some it =>
    match it.media.head? with
    | none => MediaRender.blank
    | some m =>
      if jsIncludes m.file_type "image" then MediaRender.image m.file_path
      else if jsIncludes m.file_type "video" then MediaRender.video m.file_path
      else MediaRender.unsupported

/-- The React state of the component that the top-level return reads. -/
structure PlayerSt where
  playlist : List PlaylistItem
  currentIndex : Nat
  isPlayable : Bool
  error : Option String
  isLoading : Bool
deriving DecidableEq

/-- What the top-level return renders. -/
inductive Screen where
  | errorScreen (msg : String)
  | loading
  | noContent
  | waiting
  | playerView (m : MediaRender)
deriving DecidableEq

/-- Lines 358-456: the return logic branches on `error`, then `isLoading`,
then an empty playlist, then `isPlayable`, and finally renders the media. -/
def render (st : PlayerSt) : Screen :=
  match st.error with
  | some msg => Screen.errorScreen msg
  | none =>
    if st.isLoading then Screen.loading
    else if st.playlist.length = 0 then Screen.noContent
    else if st.isPlayable = false then Screen.waiting
    else Screen.playerView (renderCurrentMedia st.playlist st.currentIndex)

/-- Lines 134-144: the `catch` branch of `checkStatusAndPlaylist` stores the
error message (the `error !== err.message` guard only avoids a redundant
re-render) and the `finally` branch clears `isLoading`; the playlist and the
cursor are left untouched and the polling interval keeps running. -/
def fetchFailStep (st : PlayerSt) (msg : String) : PlayerSt :=
  { st with error := some msg, isLoading := false }

/-- A weekday, as listed in a recurring schedule. -/
inductive Weekday where
  | mon | tue | wed | thu | fri | sat | sun
deriving DecidableEq

/-- A local calendar date (YYYY-MM-DD). -/
structure CalDate where
  year : Nat
  month : Nat
  day : Nat
deriving DecidableEq

/-- Calendar-date order: YYYY-MM-DD compared componentwise. -/
def dateLE (a b : CalDate) : Bool :=
  decide (a.year < b.year) ||
    (decide (a.year = b.year) &&
      (decide (a.month < b.month) ||
        (decide (a.month = b.month) && decide (a.day ≤ b.day))))

/-- A recurring schedule as described in spec section 3: an inclusive date
range, a daily clock window in minutes (start inclusive, end exclusive), and a
set of weekdays. -/
structure RecurringSpec where
  startDate : CalDate
  endDate : CalDate
  dailyStart : Nat
  dailyEnd : Nat
  daysOfWeek : List Weekday
deriving DecidableEq

/-- A local instant: calendar date, weekday and minute of day, the three
projections of `now` that a recurring schedule consults. -/
structure LocalInstant where
  date : CalDate
  weekday : Weekday
  minuteOfDay : Nat
deriving DecidableEq

/-- Modelled from the spec: the `Recurring{...}` eligibility of spec section
4.1.  The file under src/ is the single-`scheduled_time` evolution of the
scheduler and carries no recurring-schedule fields; the spec consolidates
several evolutions of the component, so the recurring evaluator is embedded
from the spec's words: eligible iff the calendar date lies within
`[startDate, endDate]` inclusive, the weekday is listed, and the minute of day
lies within `[dailyStart, dailyEnd)`. -/
def isEligibleRecurring (r : RecurringSpec) (now : LocalInstant) : Bool :=
  dateLE r.startDate now.date && dateLE now.date r.endDate &&
    r.daysOfWeek.contains now.weekday &&
    (decide (r.dailyStart ≤ now.minuteOfDay) && decide (now.minuteOfDay < r.dailyEnd))

/-- Concrete image media record used by the witnesses. -/
def mediaImg : MediaItem := ⟨1, "a.png", "https://cdn.example/a.png", "image/png"⟩

/-- Concrete video media record used by the witnesses. -/
def mediaVid : MediaItem := ⟨2, "b.mp4", "https://cdn.example/b.mp4", "video/mp4"⟩

/-- A default (unscheduled) item with an explicit 5-second duration. -/
def itemDefault : PlaylistItem := ⟨1, some 5, none, [mediaImg], "auto"⟩

/-- An item scheduled at "10:00". -/
def itemSched10 : PlaylistItem := ⟨2, some 5, some "10:00", [mediaImg], "auto"⟩

/-- An image item whose duration is null. -/
def itemImgNoDur : PlaylistItem := ⟨3, none, none, [mediaImg], "auto"⟩

/-- A video item whose duration is null. -/
def itemVidNoDur : PlaylistItem := ⟨4, none, none, [mediaVid], "auto"⟩

/-- `itemDefault` with only its duration changed from 5 to 10 seconds. -/
def itemDur10 : PlaylistItem := ⟨1, some 10, none, [mediaImg], "auto"⟩

/-- An item whose media array is empty. -/
def itemNoMedia : PlaylistItem := ⟨5, some 5, none, [], "auto"⟩

/-- A player state that is displaying `itemDefault`. -/
def stPlaying : PlayerSt := ⟨[itemDefault], 0, true, none, false⟩

/-- A recurring schedule for January 2024, weekdays, 09:00-17:00. -/
def recJan2024 : RecurringSpec :=
  ⟨⟨2024, 1, 1⟩, ⟨2024, 1, 31⟩, 540, 1020,
    [Weekday.mon, Weekday.tue, Weekday.wed, Weekday.thu, Weekday.fri]⟩

/-- Thursday 2024-02-01 at 10:00 (minute 600), one day past `recJan2024`. -/
def febFirst : LocalInstant := ⟨⟨2024, 2, 1⟩, Weekday.thu, 600⟩

/-- An item scheduled at "09:00". -/
def itemSched9 : PlaylistItem := ⟨6, some 5, some "09:00", [mediaImg], "auto"⟩

/-! ## Order-theoric facts about the JS string comparison -/

theorem jsLtList_iff_lt (a : List Char) : ∀ b : List Char, jsLtList a b = true ↔ a < b := by
  induction a with
  | nil =>
    intro b
    cases b with
    | nil =>
      simp only [jsLtList, Bool.false_eq_true, false_iff]
      exact List.Lex.not_nil_right _ _
    | cons y ys =>
      simp only [jsLtList, true_iff]
      exact List.nil_lt_cons y ys
  | cons x xs ih =>
    intro b
    cases b with
    | nil =>
      simp only [jsLtList, Bool.false_eq_true, false_iff]
      exact List.Lex.not_nil_right _ _
    | cons y ys =>
      simp only [jsLtList]
      rcases lt_trichotomy x y with hlt | heq | hgt
      · rw [if_pos hlt]
        simp only [true_iff]
        exact List.Lex.rel hlt
      · subst heq
        rw [if_neg (lt_irrefl x), if_neg (lt_irrefl x), ih ys]
        exact (List.Lex.cons_iff).symm
      · rw [if_neg (not_lt_of_gt hgt), if_pos hgt]
        simp only [Bool.false_eq_true, false_iff]
        intro hlex
        cases hlex with
        | cons h => exact lt_irrefl _ hgt
        | rel h => exact lt_asymm hgt h

theorem jsLE_iff_le (a b : String) : jsLE a b = true ↔ a.toList ≤ b.toList := by
  have h := jsLtList_iff_lt b.toList a.toList
  simp only [jsLE, jsLT, Bool.not_eq_true']
  rw [← not_lt]
  constructor
  · intro hf hlt
    rw [h.mpr hlt] at hf
    cases hf
  · intro hn
    cases hq : jsLtList b.toList a.toList
    · rfl
    · exact absurd (h.mp hq) hn

theorem le_append (l t : List Char) : l ≤ l ++ t := by
  induction l with
  | nil => exact List.nil_le
  | cons a l ih => exact List.cons_le_cons a ih

theorem timeHHMM_jsLE (s : String) : jsLE (timeHHMM s) s = true := by
  rw [jsLE_iff_le]
  show s.toList.take 5 ≤ s.toList
  conv_rhs => rw [← List.take_append_drop 5 s.toList]
  exact le_append _ _

/-! ## Claim C2 -/

/-- C2, counterexample: the code's eligibility predicate for the item scheduled
at "10:00" agrees with no half-open window `start <= now < end`: whatever end
instant `e` is proposed, the predicate disagrees with the window at some
instant, because once `now` reaches the start the item stays eligible forever.
So the claim that eligibility is `start <= now < end` (ineligible at
`now = end`) is false of the code. -/
theorem C2_counterexample :
    ¬ ∃ e : String, ∀ now : String,
      isItemPlayable itemSched10 now = (jsLE "10:00" now && jsLT now e) := by
  rintro ⟨e, h⟩
  have h1 := h e
  have h2 := h "10:00"
  simp only [isItemPlayable, itemSched10] at h1 h2
  have hee : jsLT e e = false := by
    cases hq : jsLT e e
    · rfl
    · simp only [jsLT] at hq
      exact absurd ((jsLtList_iff_lt _ _).mp hq) (lt_irrefl _)
  rw [hee, Bool.and_false] at h1
  have h4 : jsLT e "10:00" = true := by
    simp only [jsLE] at h1
    cases hq : jsLT e "10:00"
    · rw [hq] at h1
      cases h1
    · rfl
  simp only [jsLT] at h4
  have h5 := (jsLtList_iff_lt _ _).mp h4
  have h3 : jsLT "10:00" e = false := by
    cases hq : jsLT "10:00" e
    · rfl
    · simp only [jsLT] at hq
      exact absurd ((jsLtList_iff_lt _ _).mp hq) (lt_asymm h5)
  rw [h3, Bool.and_false] at h2
  have h6 : jsLE "10:00" "10:00" = true := by decide
  rw [h6] at h2
  cases h2

/-- C2, amended: for an item with `scheduled_time = start`, the eligibility
predicate of line 209 is exactly `start <= now` in JS string order, with no
end bound: an item eligible at `now` remains eligible at every later `now'`. -/
theorem C2_eligibility_no_end_bound (it : PlaylistItem) (s : String)
    (h : it.scheduled_time = some s) :
    (∀ now : String, isItemPlayable it now = jsLE s now) ∧
    (∀ now now' : String, jsLE s now = true → jsLE now now' = true →
      isItemPlayable it now' = true) := by
  constructor
  · intro now
    simp [isItemPlayable, h]
  · intro now now' h1 h2
    simp only [isItemPlayable, h]
    rw [jsLE_iff_le] at h1 h2 ⊢
    exact le_trans h1 h2

/-- C2, witness: the amended theorem applied to the concrete item scheduled at
"10:00", at instants "10:05:00" and "23:00:00". -/
theorem C2_witness :
    itemSched10.scheduled_time = some "10:00" ∧
    isItemPlayable itemSched10 "10:05:00" = jsLE "10:00" "10:05:00" ∧
    isItemPlayable itemSched10 "23:00:00" = true :=
  ⟨rfl, (C2_eligibility_no_end_bound itemSched10 "10:00" rfl).1 "10:05:00",
    (C2_eligibility_no_end_bound itemSched10 "10:00" rfl).2 "10:05:00" "23:00:00"
      (by decide) (by decide)⟩

/-! ## Claim C3 -/

/-- C3, counterexample: an image item with a null duration gets a hold time of
5000 ms, not the claimed 3000 ms, and a video item with a null duration gets
5000 ms, not the claimed 0 (wait-for-media-end): the fallback is a uniform
`|| 5` seconds regardless of media kind. -/
theorem C3_counterexample :
    itemImgNoDur.duration = none ∧
    renderCurrentMedia [itemImgNoDur] 0 = MediaRender.image mediaImg.file_path ∧
    durationMs itemImgNoDur = 5000 ∧
    durationMs itemImgNoDur ≠ 3000 ∧
    itemVidNoDur.duration = none ∧
    renderCurrentMedia [itemVidNoDur] 0 = MediaRender.video mediaVid.file_path ∧
    durationMs itemVidNoDur = 5000 ∧
    durationMs itemVidNoDur ≠ 0 := by decide

/-- C3, amended: the hold time is `duration * 1000` for an explicit nonzero
duration, uniformly for images and videos, and a uniform 5000 ms when the
duration is null (or zero); the computation never consults the media kind, and
no item ever gets a 0 (no-timer) hold: the renderer loops videos and the
advance is always timer-driven. -/
theorem C3_hold_time :
    (∀ it : PlaylistItem, durationMs it =
      match it.duration with
      | some d => if d = 0 then 5000 else d * 1000
      | none => 5000) ∧
    (∀ (it : PlaylistItem) (ms : List MediaItem),
      durationMs { it with media := ms } = durationMs it) ∧
    (∀ it : PlaylistItem, durationMs it ≠ 0) := by
  refine ⟨?_, ?_, ?_⟩
  · intro it
    cases hd : it.duration with
    | none => simp [durationMs, jsOr, hd]
    | some d =>
      cases d with
      | zero => simp [durationMs, jsOr, hd]
      | succ n => simp [durationMs, jsOr, hd]
  · intro it ms
    simp [durationMs]
  · intro it
    cases hd : it.duration with
    | none => simp [durationMs, jsOr, hd]
    | some d =>
      cases d with
      | zero => simp [durationMs, jsOr, hd]
      | succ n => simp [durationMs, jsOr, hd]

/-! ## Claim C8 -/

/-- C8: a refresh whose payload is identical to the held snapshot is discarded:
no mode switch is signalled, the playlist, cursor and playable flag are all
unchanged. -/
theorem C8_identical_payload_no_churn (cur : List PlaylistItem) (nowStr : String)
    (idx : Nat) (playable : Bool) :
    refreshStep cur cur nowStr idx playable = ⟨cur, idx, playable, false⟩ := by
  simp [refreshStep]

/-! ## Claim C1 -/

/-- C1, counterexample: at "10:05:00" the item scheduled at "10:00" is
eligible under the code's own predicate, yet the scheduler tick leaves the
default item at index 0 playing untouched — the active content is not the
scheduled-eligible set, so an eligible scheduled item does not take priority
over a default item. -/
theorem C1_counterexample :
    itemDefault.scheduled_time = none ∧
    itemSched10.scheduled_time = some "10:00" ∧
    isItemPlayable itemSched10 "10:05:00" = true ∧
    tick [itemDefault, itemSched10] ⟨0, 1000, true⟩ "10:05:00" 2000 = ⟨0, 1000, true⟩ := by
  decide

/-- C1, amended: a scheduled item preempts the rest of the playlist only
during the exact minute at which the current "HH:mm" equals its
`scheduled_time`: then the tick jumps to the first such item and marks it
playable.  Outside that minute, past-scheduled items and default items rotate
together and no preemption occurs. -/
theorem C1_priority_only_at_exact_minute (playlist : List PlaylistItem) (st : SchedState)
    (nowStr : String) (nowMs : Nat) (j : Nat)
    (hfind : playlist.findIdx?
      (fun it => decide (it.scheduled_time = some (timeHHMM nowStr))) = some j)
    (hne : j ≠ st.currentIndex) :
    tick playlist st nowStr nowMs = ⟨j, nowMs, true⟩ := by
  unfold tick
  rw [hfind]
  exact if_pos hne

/-- C1, witness: the amended theorem applied at "10:00:30" to a playlist whose
second item is scheduled at "10:00". -/
theorem C1_witness :
    ([itemDefault, itemSched10].findIdx?
      (fun it => decide (it.scheduled_time = some (timeHHMM "10:00:30"))) = some 1) ∧
    (1 : Nat) ≠ (0 : Nat) ∧
    tick [itemDefault, itemSched10] ⟨0, 1000, true⟩ "10:00:30" 2000 = ⟨1, 2000, true⟩ :=
  ⟨by decide, by decide,
    C1_priority_only_at_exact_minute [itemDefault, itemSched10] ⟨0, 1000, true⟩ "10:00:30" 2000 1
      (by decide) (by decide)⟩

/-! ## Claim C4 -/

/-- C4, counterexample: two playlists that differ only in one item's duration
(identical ordered identifiers and schedules, hence an identical eligible
sequence) are still reported as different by the snapshot comparison, and the
update branch runs: a mode switch is signalled and the cursor re-derived. -/
theorem C4_counterexample :
    [itemDefault].map PlaylistItem.id = [itemDur10].map PlaylistItem.id ∧
    [itemDefault].map PlaylistItem.scheduled_time =
      [itemDur10].map PlaylistItem.scheduled_time ∧
    itemDefault.duration ≠ itemDur10.duration ∧
    (refreshStep [itemDefault] [itemDur10] "12:00:00" 0 true).switched = true := by
  decide

/-- C4, amended: the snapshot comparison is full-content (JSON) equality, not
an identity-sequence comparison: any payload difference at all — even one
confined to metadata such as a duration, with the ordered item identifiers and
schedules unchanged — makes the update branch run, signalling a mode switch
and re-deriving the cursor.  Only a byte-identical payload avoids it. -/
theorem C4_content_sensitive_switch (cur newPl : List PlaylistItem) (nowStr : String)
    (idx : Nat) (playable : Bool)
    (hids : cur.map PlaylistItem.id = newPl.map PlaylistItem.id)
    (hsched : cur.map PlaylistItem.scheduled_time = newPl.map PlaylistItem.scheduled_time)
    (hne : cur ≠ newPl) :
    (refreshStep cur newPl nowStr idx playable).switched = true := by
  unfold refreshStep
  rw [if_neg hne]
  split <;> rfl

/-- C4, witness: the amended theorem applied to the duration-only change from
`itemDefault` to `itemDur10`. -/
theorem C4_witness :
    [itemDefault] ≠ [itemDur10] ∧
    (refreshStep [itemDefault] [itemDur10] "12:00:00" 0 true).switched = true :=
  ⟨by decide,
    C4_content_sensitive_switch [itemDefault] [itemDur10] "12:00:00" 0 true
      (by decide) (by decide) (by decide)⟩

/-! ## Claim C7 -/

/-- C7, counterexample: from a state that is displaying media, a fetch failure
keeps the playlist in memory but the component's top-level return then renders
the full-screen error branch, not the media — the last fetched content does
NOT continue to be displayed during the outage. -/
theorem C7_counterexample :
    render stPlaying = Screen.playerView (MediaRender.image "https://cdn.example/a.png") ∧
    (fetchFailStep stPlaying "TypeError: Network request failed").playlist =
      stPlaying.playlist ∧
    render (fetchFailStep stPlaying "TypeError: Network request failed") =
      Screen.errorScreen "TypeError: Network request failed" ∧
    ∀ m : MediaRender,
      render (fetchFailStep stPlaying "TypeError: Network request failed") ≠
        Screen.playerView m := by
  refine ⟨by decide, by decide, by decide, ?_⟩
  intro m hcontra
  rw [show render (fetchFailStep stPlaying "TypeError: Network request failed") =
    Screen.errorScreen "TypeError: Network request failed" from by decide] at hcontra
  cases hcontra

/-- C7, amended: a transient fetch failure is recoverable — it only records
the error message, leaving the last-known-good playlist and cursor in state,
and the polling interval keeps running so the fetch is retried on the next
cycle — but while the error is set the UI replaces playback with a full-screen
error (with a "Retrying in background..." note) rather than continuing to show
the media. -/
theorem C7_failure_keeps_playlist_shows_error (st : PlayerSt) (msg : String) :
    (fetchFailStep st msg).playlist = st.playlist ∧
    (fetchFailStep st msg).currentIndex = st.currentIndex ∧
    (fetchFailStep st msg).error = some msg ∧
    render (fetchFailStep st msg) = Screen.errorScreen msg :=
  ⟨rfl, rfl, rfl, rfl⟩

/-! ## Claim C5 -/

theorem filter_take_eq_nil {α : Type} {p : α → Bool} :
    ∀ (l : List α) (n : Nat), n ≤ l.findIdx p → (l.take n).filter p = [] := by
  intro l
  induction l with
  | nil =>
    intro n h
    simp
  | cons a t ih =>
    intro n h
    cases n with
    | zero => simp
    | succ m =>
      cases hp : p a
      · simp only [List.findIdx_cons, hp, cond_false] at h
        simp only [List.take_succ_cons, List.filter_cons, hp, Bool.false_eq_true, if_false]
        exact ih m (by omega)
      · simp only [List.findIdx_cons, hp, cond_true] at h
        omega

/-- C5, counterexample: not every mode switch resets the cursor to the active
queue's position 0.  With playlist `[itemSched9, itemSched10]` playing item 0,
the active (playable) subsequence grows at 10:00:00 from `[itemSched9]` to
`[itemSched9, itemSched10]` — a queue-identity change — and the exact-minute
jump sets the cursor to playlist index 1, which is active position 1: a
playable item precedes it. -/
theorem C5_counterexample :
    [itemSched9, itemSched10].filter (fun it => isItemPlayable it "09:59:59") =
      [itemSched9] ∧
    [itemSched9, itemSched10].filter (fun it => isItemPlayable it "10:00:00") =
      [itemSched9, itemSched10] ∧
    tick [itemSched9, itemSched10] ⟨0, 1000, true⟩ "10:00:00" 2000 = ⟨1, 2000, true⟩ ∧
    ([itemSched9, itemSched10].take 1).filter (fun it => isItemPlayable it "10:00:00") ≠
      [] := by
  decide

/-- C5, amended: the cursor reset depends on which kind of mode switch occurs.
When the refresh branch detects a changed payload, the re-derived cursor
starts the new queue from its beginning: with no playable item the player
enters the waiting (empty) state with index 0, and otherwise the cursor lands
on a playable item that no earlier playable item precedes — position 0 of the
active (playable) subsequence — with the playable flag set.  At a schedule
boundary, however, the exact-minute jump sets the cursor to the first item
whose `scheduled_time` equals the current minute — position 0 of the
exact-minute-scheduled subsequence — which may be a nonzero position of the
playable queue. -/
theorem C5_cursor_after_mode_switch :
    (∀ (cur newPl : List PlaylistItem) (nowStr : String) (idx : Nat) (playable : Bool),
      cur ≠ newPl →
      (newPl.filter (fun it => isItemPlayable it nowStr) = [] →
        (refreshStep cur newPl nowStr idx playable).currentIndex = 0 ∧
        (refreshStep cur newPl nowStr idx playable).isPlayable = false) ∧
      (newPl.filter (fun it => isItemPlayable it nowStr) ≠ [] →
        (refreshStep cur newPl nowStr idx playable).isPlayable = true ∧
        ∃ it, newPl[(refreshStep cur newPl nowStr idx playable).currentIndex]? = some it ∧
          isItemPlayable it nowStr = true ∧
          (newPl.take (refreshStep cur newPl nowStr idx playable).currentIndex).filter
            (fun it => isItemPlayable it nowStr) = [])) ∧
    (∀ (playlist : List PlaylistItem) (st : SchedState) (nowStr : String) (nowMs : Nat)
        (j : Nat),
      playlist.findIdx? (fun it => decide (it.scheduled_time = some (timeHHMM nowStr))) =
        some j →
      j ≠ st.currentIndex →
      tick playlist st nowStr nowMs = ⟨j, nowMs, true⟩ ∧
      (playlist.take j).filter
        (fun it => decide (it.scheduled_time = some (timeHHMM nowStr))) = []) := by
  constructor
  · intro cur newPl nowStr idx playable hne
    unfold refreshStep
    rw [if_neg hne]
    rcases hf : newPl.findIdx? (fun it => isItemPlayable it nowStr) with _ | i
    · rw [List.findIdx?_eq_none_iff] at hf
      constructor
      · intro _
        exact ⟨rfl, rfl⟩
      · intro hnil
        refine absurd (List.filter_eq_nil_iff.mpr ?_) hnil
        intro a ha hpa
        rw [hf a ha] at hpa
        cases hpa
    · rw [List.findIdx?_eq_some_iff_findIdx_eq] at hf
      obtain ⟨hlt, hidx⟩ := hf
      constructor
      · intro hnil
        subst hidx
        have hw := List.getElem?_eq_getElem hlt
        have hp := List.findIdx_of_getElem?_eq_some hw
        have hmem := List.getElem_mem hlt
        have hno := List.filter_eq_nil_iff.mp hnil _ hmem
        exact absurd hp hno
      · intro _
        subst hidx
        have hw := List.getElem?_eq_getElem hlt
        have hp := List.findIdx_of_getElem?_eq_some hw
        exact ⟨rfl, newPl[newPl.findIdx (fun it => isItemPlayable it nowStr)],
          List.getElem?_eq_getElem hlt, hp,
          filter_take_eq_nil newPl _ (Nat.le_refl _)⟩
  · intro playlist st nowStr nowMs j hfind hne
    constructor
    · unfold tick
      rw [hfind]
      exact if_pos hne
    · rw [List.findIdx?_eq_some_iff_findIdx_eq] at hfind
      obtain ⟨hlt, hidx⟩ := hfind
      exact filter_take_eq_nil playlist j (le_of_eq hidx.symm)

/-- C5, witness: the refresh conjunct applied to a refresh from an empty
snapshot to `[itemDefault]`, and the jump conjunct applied to the
schedule-boundary jump at "10:00:00". -/
theorem C5_witness :
    ((([] : List PlaylistItem) ≠ [itemDefault]) ∧
      ([itemDefault].filter (fun it => isItemPlayable it "12:00:00") ≠ []) ∧
      ((refreshStep [] [itemDefault] "12:00:00" 0 false).isPlayable = true ∧
        ∃ it, [itemDefault][(refreshStep [] [itemDefault] "12:00:00" 0 false).currentIndex]? =
            some it ∧
          isItemPlayable it "12:00:00" = true ∧
          ([itemDefault].take
              (refreshStep [] [itemDefault] "12:00:00" 0 false).currentIndex).filter
            (fun it => isItemPlayable it "12:00:00") = [])) ∧
    (([itemSched9, itemSched10].findIdx?
        (fun it => decide (it.scheduled_time = some (timeHHMM "10:00:00"))) = some 1) ∧
      (1 : Nat) ≠ (0 : Nat) ∧
      tick [itemSched9, itemSched10] ⟨0, 1000, true⟩ "10:00:00" 2000 = ⟨1, 2000, true⟩ ∧
      ([itemSched9, itemSched10].take 1).filter
        (fun it => decide (it.scheduled_time = some (timeHHMM "10:00:00"))) = []) :=
  ⟨⟨by decide, by decide,
    (C5_cursor_after_mode_switch.1 [] [itemDefault] "12:00:00" 0 false (by decide)).2
      (by decide)⟩,
   ⟨by decide, by decide,
    (C5_cursor_after_mode_switch.2 [itemSched9, itemSched10] ⟨0, 1000, true⟩ "10:00:00" 2000 1
      (by decide) (by decide)).1,
    (C5_cursor_after_mode_switch.2 [itemSched9, itemSched10] ⟨0, 1000, true⟩ "10:00:00" 2000 1
      (by decide) (by decide)).2⟩⟩

/-! ## Claim C6 -/

/-- C6: a recurring item is ineligible at any instant whose calendar date lies
outside the inclusive `[startDate, endDate]` range, regardless of its weekday
and time-of-day constraints. -/
theorem C6_recurring_outside_date_range (r : RecurringSpec) (now : LocalInstant)
    (h : dateLE r.startDate now.date = false ∨ dateLE now.date r.endDate = false) :
    isEligibleRecurring r now = false := by
  unfold isEligibleRecurring
  rcases h with h | h <;> simp [h]

/-- C6, witness: the theorem at the spec's own example — a January 2024
weekday 09:00-17:00 schedule evaluated on Thursday 2024-02-01 at 10:00, where
the weekday and time-of-day constraints hold but the date is out of range. -/
theorem C6_witness :
    dateLE febFirst.date recJan2024.endDate = false ∧
    recJan2024.daysOfWeek.contains febFirst.weekday = true ∧
    decide (recJan2024.dailyStart ≤ febFirst.minuteOfDay) = true ∧
    decide (febFirst.minuteOfDay < recJan2024.dailyEnd) = true ∧
    isEligibleRecurring recJan2024 febFirst = false :=
  ⟨by decide, by decide, by decide, by decide,
    C6_recurring_outside_date_range recJan2024 febFirst (Or.inr (by decide))⟩

/-! ## Claim C9 -/

theorem nextPlayableIndex_eq_none (playlist : List PlaylistItem) (cur : Nat) (nowStr : String)
    (h : ∀ (j : Nat) (it' : PlaylistItem), playlist[j]? = some it' →
      isItemPlayable it' nowStr = true → j = cur)
    (hcl : cur < playlist.length) :
    nextPlayableIndex playlist cur nowStr = none := by
  unfold nextPlayableIndex
  rw [List.find?_eq_none]
  intro t ht
  rw [List.mem_map] at ht
  obtain ⟨k, hk, rfl⟩ := ht
  rw [List.mem_range] at hk
  intro hmatch
  have hlenpos : 0 < playlist.length := Nat.lt_of_le_of_lt (Nat.zero_le _) hcl
  have htlt : (cur + (k + 1)) % playlist.length < playlist.length := Nat.mod_lt _ hlenpos
  have hts := List.getElem?_eq_getElem htlt
  rw [hts] at hmatch
  have heq := h _ _ hts hmatch
  rcases Nat.lt_or_ge (cur + (k + 1)) playlist.length with hlt2 | hge
  · rw [Nat.mod_eq_of_lt hlt2] at heq
    omega
  · rw [Nat.mod_eq_sub_mod hge,
      Nat.mod_eq_of_lt (show cur + (k + 1) - playlist.length < playlist.length by omega)] at heq
    omega

theorem tickBody_restart (playlist : List PlaylistItem) (st : SchedState)
    (nowStr : String) (nowMs : Nat) (it : PlaylistItem)
    (hcur : playlist[st.currentIndex]? = some it)
    (hplay : isItemPlayable it nowStr = true)
    (huniq : ∀ (j : Nat) (it' : PlaylistItem), playlist[j]? = some it' →
      isItemPlayable it' nowStr = true → j = st.currentIndex)
    (hwas : st.isPlayable = true)
    (hexp : durationMs it < nowMs - st.mediaStartTime) :
    tickBody playlist st st.isPlayable nowStr nowMs = { st with mediaStartTime := nowMs } := by
  have hlt : st.currentIndex < playlist.length := by
    rcases List.getElem?_eq_some_iff.mp hcur with ⟨h, _⟩
    exact h
  have hnone := nextPlayableIndex_eq_none playlist st.currentIndex nowStr huniq hlt
  unfold tickBody
  rw [hcur]
  simp only [hplay, hwas, Bool.not_true, Bool.false_eq_true, if_false, hnone]
  rw [if_pos hexp]
  exact if_pos trivial

/-- C9: when the current item is the only playable item of the playlist (a
one-element active queue) and its hold time has expired, the tick restarts the
same item: the index is unchanged, only the media start time is reset to now,
and no mode switch happens. -/
theorem C9_single_playable_restarts (playlist : List PlaylistItem) (st : SchedState)
    (nowStr : String) (nowMs : Nat) (it : PlaylistItem)
    (hcur : playlist[st.currentIndex]? = some it)
    (hplay : isItemPlayable it nowStr = true)
    (huniq : ∀ (j : Nat) (it' : PlaylistItem), playlist[j]? = some it' →
      isItemPlayable it' nowStr = true → j = st.currentIndex)
    (hwas : st.isPlayable = true)
    (hexp : durationMs it < nowMs - st.mediaStartTime) :
    tick playlist st nowStr nowMs = { st with mediaStartTime := nowMs } := by
  unfold tick
  rcases hfind : playlist.findIdx?
      (fun x => decide (x.scheduled_time = some (timeHHMM nowStr))) with _ | j
  · simp only [hfind]
    exact tickBody_restart playlist st nowStr nowMs it hcur hplay huniq hwas hexp
  · simp only [hfind]
    rw [List.findIdx?_eq_some_iff_findIdx_eq] at hfind
    obtain ⟨hjlt, hjidx⟩ := hfind
    subst hjidx
    have hw := List.getElem?_eq_getElem hjlt
    have hpj := List.findIdx_of_getElem?_eq_some hw
    have hsched := of_decide_eq_true hpj
    have hplayj : isItemPlayable
        (playlist[playlist.findIdx
          (fun x => decide (x.scheduled_time = some (timeHHMM nowStr)))]) nowStr = true := by
      simp only [isItemPlayable, hsched]
      exact timeHHMM_jsLE nowStr
    have hjeq := huniq _ _ hw hplayj
    rw [if_neg (not_ne_iff.mpr hjeq)]
    exact tickBody_restart playlist st nowStr nowMs it hcur hplay huniq hwas hexp

/-- C9, witness: the theorem on the singleton playlist `[itemDefault]` with an
expired 5-second hold. -/
theorem C9_witness :
    ([itemDefault] : List PlaylistItem)[(0 : Nat)]? = some itemDefault ∧
    isItemPlayable itemDefault "12:00:00" = true ∧
    durationMs itemDefault < 99999 - 1000 ∧
    tick [itemDefault] ⟨0, 1000, true⟩ "12:00:00" 99999 = ⟨0, 99999, true⟩ :=
  ⟨by decide, by decide, by decide,
    C9_single_playable_restarts [itemDefault] ⟨0, 1000, true⟩ "12:00:00" 99999 itemDefault
      (by decide) (by decide)
      (fun j it' hj hp => by
        cases j with
        | zero => rfl
        | succ n => simp at hj)
      rfl (by decide)⟩

/-! ## Claim C10 -/

/-- C10, counterexample: a tick that runs with the cursor out of bounds does
not always reset the index to 0 — when some item's `scheduled_time` equals the
current minute, the tick jumps to that item's index instead (here index 1). -/
theorem C10_counterexample :
    ([itemDefault, itemSched10] : List PlaylistItem)[(5 : Nat)]? = none ∧
    (tick [itemDefault, itemSched10] ⟨5, 0, true⟩ "10:00:30" 7777).currentIndex = 1 ∧
    (tick [itemDefault, itemSched10] ⟨5, 0, true⟩ "10:00:30" 7777).currentIndex ≠ 0 := by
  decide

/-- C10, amended: indexing at the interface is always guarded.  A tick whose
cursor is out of bounds resets the index to 0 and makes no other change,
provided no item's `scheduled_time` equals the current minute (otherwise the
exact-minute jump retargets the cursor to that item's in-bounds index first);
rendering with an out-of-bounds index, or with an item that has no media,
yields a blank view. -/
theorem C10_guarded_indexing :
    (∀ (playlist : List PlaylistItem) (st : SchedState) (nowStr : String) (nowMs : Nat),
      playlist.findIdx? (fun x => decide (x.scheduled_time = some (timeHHMM nowStr))) = none →
      playlist[st.currentIndex]? = none →
      tick playlist st nowStr nowMs = { st with currentIndex := 0 }) ∧
    (∀ (playlist : List PlaylistItem) (idx : Nat),
      playlist[idx]? = none → renderCurrentMedia playlist idx = MediaRender.blank) ∧
    (∀ (playlist : List PlaylistItem) (idx : Nat) (it : PlaylistItem),
      playlist[idx]? = some it → it.media = [] →
      renderCurrentMedia playlist idx = MediaRender.blank) := by
  refine ⟨?_, ?_, ?_⟩
  · intro playlist st nowStr nowMs hfind hoob
    unfold tick
    rw [hfind]
    show tickBody playlist st st.isPlayable nowStr nowMs = _
    unfold tickBody
    rw [hoob]
  · intro playlist idx h
    unfold renderCurrentMedia
    rw [h]
  · intro playlist idx it h hm
    simp only [renderCurrentMedia, h, hm, List.head?_nil]

/-- C10, witness: the amended theorem applied to an out-of-bounds tick with no
exact-minute match, an out-of-bounds render, and a render of an item with no
media. -/
theorem C10_witness :
    ([itemDefault].findIdx?
      (fun x => decide (x.scheduled_time = some (timeHHMM "12:00:00"))) = none) ∧
    ([itemDefault] : List PlaylistItem)[(5 : Nat)]? = none ∧
    tick [itemDefault] ⟨5, 0, true⟩ "12:00:00" 7777 = ⟨0, 0, true⟩ ∧
    renderCurrentMedia [itemDefault] 5 = MediaRender.blank ∧
    ([itemNoMedia] : List PlaylistItem)[(0 : Nat)]? = some itemNoMedia ∧
    itemNoMedia.media = [] ∧
    renderCurrentMedia [itemNoMedia] 0 = MediaRender.blank :=
  ⟨by decide, by decide,
    C10_guarded_indexing.1 [itemDefault] ⟨5, 0, true⟩ "12:00:00" 7777 (by decide) (by decide),
    C10_guarded_indexing.2.1 [itemDefault] 5 (by decide),
    by decide, by decide,
    C10_guarded_indexing.2.2 [itemNoMedia] 0 itemNoMedia (by decide) (by decide)⟩
